import Mathlib

/-
Verification development for the expense-tracking chat bot
(`app.py` and `sheets_integration.py`).

Modelling conventions:
* Python `str` is modelled as `List Char`.
* Python `float` is modelled as `ℚ` (the aggregation logic only adds and
  compares, which is exact over the rationals).
* A spreadsheet tab is a `List (List Cell)` of rows of cells; row 0 is the
  header row, matching the `values[1:]` header skips in the source.
* Operations that may raise and be caught return `Option`/a `Bool` flag.
-/

/-- Whitespace characters removed by Python `str.strip()`. -/
def isPySpace (c : Char) : Bool :=
  c == ' ' || c == '\t' || c == '\n' || c == '\r' || c == '\x0b' || c == '\x0c'

/-- Model of Python `str.strip()`. -/
def pyStrip (cs : List Char) : List Char :=
  ((cs.dropWhile isPySpace).reverse.dropWhile isPySpace).reverse

/-- Model of Python `str.lower()` (the categories involved are ASCII). -/
def pyLower (cs : List Char) : List Char :=
  cs.map Char.toLower

/-- Numeric value of a list of decimal digit characters. -/
def digitsToNat (ds : List Char) : Nat :=
  ds.foldl (fun a c => 10 * a + (c.toNat - 48)) 0

/-- Zero-pad the decimal rendering of `n` to width 2 (strftime `%m`/`%d`). -/
def pad2 (n : Nat) : List Char :=
  let ds := Nat.toDigits 10 n
  List.replicate (2 - ds.length) '0' ++ ds

/-- Zero-pad the decimal rendering of `n` to width 4 (strftime `%Y`). -/
def pad4 (n : Nat) : List Char :=
  let ds := Nat.toDigits 10 n
  List.replicate (4 - ds.length) '0' ++ ds

/-- A calendar date as held by a Python `datetime`. -/
structure Date where
  year : Nat
  month : Nat
  day : Nat
deriving DecidableEq

def isLeapYear (y : Nat) : Bool :=
  (y % 4 == 0 && y % 100 != 0) || y % 400 == 0

def daysInMonth (y m : Nat) : Nat :=
  if m = 2 then (if isLeapYear y then 29 else 28)
  else if m = 4 ∨ m = 6 ∨ m = 9 ∨ m = 11 then 30
  else 31

/-- Model of one `strptime` numeric field matching the regex alternation
`0[1-9]|1[0-2]|[1-9]` (for `%m`, `hi = 12`) or `3[01]|[12][0-9]|0[1-9]|[1-9]`
(for `%d`, `hi = 31`): a two-digit match in `1..hi` is preferred, otherwise a
single nonzero digit is consumed. -/
def parseNumField (hi : Nat) : List Char → Option (Nat × List Char)
  | [] => none
  | [a] =>
    if a.isDigit && a != '0' then some (a.toNat - 48, []) else none
  | a :: b :: rest =>
    if a.isDigit && b.isDigit then
      let v := 10 * (a.toNat - 48) + (b.toNat - 48)
      if 1 ≤ v ∧ v ≤ hi then some (v, rest)
      else if a != '0' then some (a.toNat - 48, b :: rest) else none
    else if a.isDigit && a != '0' then some (a.toNat - 48, b :: rest)
    else none

/-- Model of `datetime.strptime(s, "%Y-%m-%d")`: exactly four year digits,
one or two month and day digits, nothing left over, and the day must exist in
the month (`datetime` construction validates it); `none` models the
`ValueError` raised otherwise. -/
def parseDate (cs : List Char) : Option Date :=
  match cs with
  | y1 :: y2 :: y3 :: y4 :: '-' :: rest =>
    if y1.isDigit && y2.isDigit && y3.isDigit && y4.isDigit then
      let y := digitsToNat [y1, y2, y3, y4]
      match parseNumField 12 rest with
      | some (m, '-' :: rest2) =>
        match parseNumField 31 rest2 with
        | some (d, []) =>
          if 1 ≤ y ∧ d ≤ daysInMonth y m then some ⟨y, m, d⟩ else none
        | _ => none
      | _ => none
    else none
  | _ => none

/-- Model of `strftime("%Y-%m")` on a date with the given year and month. -/
def fmtMonth (y m : Nat) : List Char :=
  pad4 y ++ '-' :: pad2 m

/-- Model of `strftime("%Y-%m-%d")`. -/
def fmtDate (dt : Date) : List Char :=
  pad4 dt.year ++ '-' :: (pad2 dt.month ++ '-' :: pad2 dt.day)

/-- A JSON value as returned by `json.loads`. -/
inductive Json where
  | null
  | bool (b : Bool)
  | num (v : ℚ)
  | str (s : List Char)
  | arr (elems : List Json)
  | obj (fields : List (List Char × Json))

/-- JSON insignificant whitespace. -/
def skipJsonWs (cs : List Char) : List Char :=
  cs.dropWhile (fun c => c == ' ' || c == '\t' || c == '\n' || c == '\r')

/-- Body of a JSON string after the opening quote; handles the single-character
escapes (`\u` escapes are outside the modelled subset). -/
def parseJsonStringBody : List Char → Option (List Char × List Char)
  | [] => none
  | '"' :: rest => some ([], rest)
  | '\\' :: e :: rest =>
    match (match e with
      | '"' => some '"'
      | '\\' => some '\\'
      | '/' => some '/'
      | 'n' => some '\n'
      | 't' => some '\t'
      | 'r' => some '\r'
      | 'b' => some '\x08'
      | 'f' => some '\x0c'
      | _ => none) with
    | some c => (parseJsonStringBody rest).map (fun p => (c :: p.1, p.2))
    | none => none
  | c :: rest =>
    if c.toNat < 32 then none
    else (parseJsonStringBody rest).map (fun p => (c :: p.1, p.2))

def spanDigits (cs : List Char) : List Char × List Char :=
  (cs.takeWhile Char.isDigit, cs.dropWhile Char.isDigit)

/-- `mantissa * 10 ^ e` as a rational. -/
def scaledRat (mantissa : Int) (e : Int) : ℚ :=
  if 0 ≤ e then mkRat (mantissa * (10 : Int) ^ e.toNat) 1
  else mkRat mantissa ((10 : Nat) ^ (- e).toNat)

/-- Optional exponent part of a JSON number; `some (0, cs)` when absent. -/
def parseExponentPart : List Char → Option (Int × List Char)
  | [] => some (0, [])
  | c :: rest =>
    if c == 'e' || c == 'E' then
      let (sgn, r1) : Int × List Char :=
        match rest with
        | '+' :: t => (1, t)
        | '-' :: t => (-1, t)
        | _ => (1, rest)
      let (ds, r2) := spanDigits r1
      if ds.isEmpty then none else some (sgn * (digitsToNat ds : Int), r2)
    else some (0, c :: rest)

/-- A JSON number: optional minus, an integer part with no leading zeros, an
optional fraction, an optional exponent. -/
def parseJsonNumber (cs : List Char) : Option (ℚ × List Char) :=
  let (sign, cs1) : Int × List Char :=
    match cs with
    | '-' :: t => (-1, t)
    | _ => (1, cs)
  let (ip, cs2) := spanDigits cs1
  if ip.isEmpty then none
  else if 1 < ip.length && ip.headD '0' == '0' then none
  else
    match cs2 with
    | '.' :: t =>
      let (fp, cs3) := spanDigits t
      if fp.isEmpty then none
      else
        match parseExponentPart cs3 with
        | some (e, cs4) =>
          some (scaledRat (sign * (digitsToNat (ip ++ fp) : Int)) (e - fp.length), cs4)
        | none => none
    | _ =>
      match parseExponentPart cs2 with
      | some (e, cs4) => some (scaledRat (sign * (digitsToNat ip : Int)) e, cs4)
      | none => none

mutual

/-- Fuel-indexed recursive-descent JSON value. -/
def parseJsonValue : Nat → List Char → Option (Json × List Char)
  | 0, _ => none
  | fuel + 1, cs =>
    match skipJsonWs cs with
    | [] => none
    | '\x7b' :: rest =>
      match skipJsonWs rest with
      | '\x7d' :: r2 => some (.obj [], r2)
      | r2 =>
        match parseJsonMembers fuel r2 with
        | some (kvs, r3) => some (.obj kvs, r3)
        | none => none
    | '[' :: rest =>
      match skipJsonWs rest with
      | ']' :: r2 => some (.arr [], r2)
      | r2 =>
        match parseJsonElems fuel r2 with
        | some (xs, r3) => some (.arr xs, r3)
        | none => none
    | '"' :: rest =>
      match parseJsonStringBody rest with
      | some (s, r2) => some (.str s, r2)
      | none => none
    | 't' :: 'r' :: 'u' :: 'e' :: rest => some (.bool true, rest)
    | 'f' :: 'a' :: 'l' :: 's' :: 'e' :: rest => some (.bool false, rest)
    | 'n' :: 'u' :: 'l' :: 'l' :: rest => some (.null, rest)
    | other =>
      match parseJsonNumber other with
      | some (q, r2) => some (.num q, r2)
      | none => none

/-- One or more `"key": value` members followed by `}`. -/
def parseJsonMembers : Nat → List Char → Option (List (List Char × Json) × List Char)
  | 0, _ => none
  | fuel + 1, cs =>
    match skipJsonWs cs with
    | '"' :: rest =>
      match parseJsonStringBody rest with
      | some (k, r2) =>
        match skipJsonWs r2 with
        | ':' :: r3 =>
          match parseJsonValue fuel r3 with
          | some (v, r4) =>
            match skipJsonWs r4 with
            | ',' :: r5 =>
              match parseJsonMembers fuel r5 with
              | some (kvs, r6) => some ((k, v) :: kvs, r6)
              | none => none
            | '\x7d' :: r5 => some ([(k, v)], r5)
            | _ => none
          | none => none
        | _ => none
      | none => none
    | _ => none

/-- One or more array elements followed by `]`. -/
def parseJsonElems : Nat → List Char → Option (List Json × List Char)
  | 0, _ => none
  | fuel + 1, cs =>
    match parseJsonValue fuel cs with
    | some (v, r1) =>
      match skipJsonWs r1 with
      | ',' :: r2 =>
        match parseJsonElems fuel r2 with
        | some (xs, r3) => some (v :: xs, r3)
        | none => none
      | ']' :: r2 => some ([v], r2)
      | _ => none
    | none => none

end

/-- Model of `json.loads`: a single JSON value with nothing but whitespace
around it (common escape and number subset; objects keep their key order). -/
def pyJsonLoads (cs : List Char) : Option Json :=
  match parseJsonValue (cs.length + 1) cs with
  | some (v, rest) => if (skipJsonWs rest).isEmpty then some v else none
  | none => none

/-- A spreadsheet cell value as written through the Sheets API: a string, a
number, or (for completeness) some other JSON value written verbatim. -/
inductive Cell where
  | s (v : List Char)
  | n (v : ℚ)
  | other (v : Json)

/-- Python `==` between a cell value and a string (`row[0] == month_str`):
true only for an equal string. -/
def cellEqStr (c : Cell) (t : List Char) : Bool :=
  match c with
  | .s v => v == t
  | _ => false

/-- Python truthiness of a JSON value. -/
def jsonTruthy : Json → Bool
  | .null => false
  | .bool b => b
  | .num v => decide (v ≠ 0)
  | .str s => !s.isEmpty
  | .arr xs => !xs.isEmpty
  | .obj kvs => !kvs.isEmpty

/-- Python truthiness of a cell value (`if row[1]`, `if row[2]`). -/
def cellTruthy : Cell → Bool
  | .s v => !v.isEmpty
  | .n v => decide (v ≠ 0)
  | .other v => jsonTruthy v

/-- Python `cell.lower()`: defined for strings only; `none` models the
`AttributeError` raised on any other value. -/
def cellLower : Cell → Option (List Char)
  | .s v => some (pyLower v)
  | _ => none

/-- Model of Python `float(str)` on plain decimal literals
(sign, digits, optional fraction; exponents/inf/nan are outside the modelled
subset); `none` models the `ValueError` on anything else. -/
def parseFloatChars (cs : List Char) : Option ℚ :=
  let t := pyStrip cs
  let (sign, t1) : Int × List Char :=
    match t with
    | '-' :: r => (-1, r)
    | '+' :: r => (1, r)
    | _ => (1, t)
  let (ip, t2) := spanDigits t1
  match t2 with
  | [] => if ip.isEmpty then none else some (mkRat (sign * (digitsToNat ip : Int)) 1)
  | '.' :: t3 =>
    let (fp, t4) := spanDigits t3
    if t4.isEmpty && !(ip.isEmpty && fp.isEmpty) then
      some (mkRat (sign * (digitsToNat (ip ++ fp) : Int)) ((10 : Nat) ^ fp.length))
    else none
  | _ => none

/-- Model of Python `float(cell)`; `none` models the raised `TypeError` or
`ValueError` (a bool converts like an int). -/
def cellFloat : Cell → Option ℚ
  | .n v => some v
  | .s v => parseFloatChars v
  | .other (.bool b) => some (if b then 1 else 0)
  | .other _ => none

/-- How a JSON value taken from the extractor's dict lands in a cell. -/
def jsonCell : Json → Cell
  | .num v => .n v
  | .str v => .s v
  | v => .other v

/-- Python `dict.get(key)` on the decoded JSON object (keys are unique in the
objects this system handles). -/
def dictGet : List (List Char × Json) → List Char → Option Json
  | [], _ => none
  | (k, v) :: rest, key => if k == key then some v else dictGet rest key

/-- The spreadsheet-backed store: the Expenses ledger tab and the
Monthly_Totals summary tab, each with its header row at index 0. -/
structure SheetsState where
  expenses : List (List Cell)
  summary : List (List Cell)

/-- The `totals` accumulator dict of `_update_monthly_totals`. -/
structure Totals where
  total : ℚ
  food : ℚ
  transport : ℚ
  utilities : ℚ
  shopping : ℚ
  entertainment : ℚ
  healthcare : ℚ
  other : ℚ
deriving DecidableEq

def totalsInit : Totals := ⟨0, 0, 0, 0, 0, 0, 0, 0⟩

/-- One matching ledger row's contribution: `totals['total'] += amount`, then
`if category in totals: totals[category] += amount else:
totals['other'] += amount`.  The membership test is against the accumulator
dict itself, whose keys include `'total'`, so the lowercased category string
`"total"` hits the first branch and is added to the `total` entry again. -/
def bumpTotals (t : Totals) (amount : ℚ) (category : List Char) : Totals :=
  let t1 := { t with total := t.total + amount }
  if category == "total".data then { t1 with total := t1.total + amount }
  else if category == "food".data then { t1 with food := t1.food + amount }
  else if category == "transport".data then { t1 with transport := t1.transport + amount }
  else if category == "utilities".data then { t1 with utilities := t1.utilities + amount }
  else if category == "shopping".data then { t1 with shopping := t1.shopping + amount }
  else if category == "entertainment".data then { t1 with entertainment := t1.entertainment + amount }
  else if category == "healthcare".data then { t1 with healthcare := t1.healthcare + amount }
  else { t1 with other := t1.other + amount }

/-- Processing of one row of `expense_values[1:]`: rows shorter than 6 cells
or of another month are skipped; `none` models an exception from
`float(row[1])` or `row[2].lower()`, which aborts the whole recompute. -/
def expenseRowStep (month : List Char) (t : Totals) (row : List Cell) : Option Totals :=
  if 6 ≤ row.length ∧ cellEqStr (row.getD 5 (.n 0)) month then
    match (if cellTruthy (row.getD 1 (.n 0)) then cellFloat (row.getD 1 (.n 0)) else some 0) with
    | none => none
    | some amount =>
      match (if cellTruthy (row.getD 2 (.n 0)) then cellLower (row.getD 2 (.n 0)) else some ("other".data)) with
      | none => none
      | some category => some (bumpTotals t amount category)
  else some t

def sumExpenseRows (month : List Char) : List (List Cell) → Totals → Option Totals
  | [], t => some t
  | r :: rs, t =>
    match expenseRowStep month t r with
    | some t1 => sumExpenseRows month rs t1
    | none => none

/-- The category-totals computation of `_update_monthly_totals` over the full
ledger read (header row skipped). -/
def computeTotals (expenseValues : List (List Cell)) (month : List Char) : Option Totals :=
  sumExpenseRows month (expenseValues.drop 1) totalsInit

/-- The `new_row` written for a month. -/
def summaryRowOf (month : List Char) (t : Totals) : List Cell :=
  [.s month, .n t.total, .n t.food, .n t.transport, .n t.utilities, .n t.shopping,
   .n t.entertainment, .n t.healthcare, .n t.other]

/-- Position of the first summary data row keyed by `month`
(the `for i, row in enumerate(values[1:], 2)` search, as an index into the
rows after the header). -/
def findRowFrom (month : List Char) : List (List Cell) → Option Nat
  | [] => none
  | row :: rest =>
    if !row.isEmpty && cellEqStr (row.headD (.n 0)) month then some 0
    else (findRowFrom month rest).map (· + 1)

/-- `_update_monthly_totals` with the sheet I/O succeeding: recompute the
month's totals from the full ledger, then overwrite the month's summary row in
place (the update touches columns A..I only, so cells beyond the ninth keep
their old values) or append a new row if the month has none.  A `none` from
`computeTotals` models the caught exception path, which writes nothing. -/
def update_monthly_totals (state : SheetsState) (month : List Char) : SheetsState :=
  match computeTotals state.expenses month with
  | none => state
  | some t =>
    let newRow := summaryRowOf month t
    match findRowFrom month (state.summary.drop 1) with
    | some j =>
      { state with
        summary := state.summary.set (j + 1) (newRow ++ (state.summary.getD (j + 1) []).drop 9) }
    | none => { state with summary := state.summary ++ [newRow] }

/-- Which of the two external sheet writes succeed on this call; a `false`
models the corresponding API call raising. -/
structure ExtEnv where
  appendOk : Bool
  summaryOk : Bool

/-- The `expense_data.get('date', datetime.now().strftime('%Y-%m-%d'))`
default. -/
def expenseDate (d : List (List Char × Json)) (today : Date) : Json :=
  (dictGet d ("date".data)).getD (.str (fmtDate today))

/-- The date string handed to `strptime`; `none` when the dict holds a
non-string date value (`strptime` then raises a `TypeError`). -/
def expenseDateStr (d : List (List Char × Json)) (today : Date) : Option (List Char) :=
  match expenseDate d today with
  | .str ds => some ds
  | _ => none

/-- The `row_data` list built by `log_expense`, with the write-time defaults
for the absent fields. -/
def ledgerRowOf (d : List (List Char × Json)) (dateStr month : List Char) : List Cell :=
  [.s dateStr,
   jsonCell ((dictGet d ("amount".data)).getD (.num 0)),
   jsonCell ((dictGet d ("category".data)).getD (.str ("other".data))),
   jsonCell ((dictGet d ("description".data)).getD (.str [])),
   jsonCell ((dictGet d ("merchant".data)).getD (.str [])),
   .s month]

/-- `log_expense`: default the date, derive the month key, append the ledger
row, then trigger the summary recompute.  Any exception up to and including
the ledger append is caught and reported as `false` with the state unchanged;
a failure inside `_update_monthly_totals` is caught inside that helper and
never reaches this function's return value. -/
def log_expense (env : ExtEnv) (state : SheetsState) (today : Date)
    (d : List (List Char × Json)) : Bool × SheetsState :=
  match expenseDateStr d today with
  | none => (false, state)
  | some dateStr =>
    match parseDate dateStr with
    | none => (false, state)
    | some dt =>
      let month := fmtMonth dt.year dt.month
      if env.appendOk then
        let s1 := { state with expenses := state.expenses ++ [ledgerRowOf d dateStr month] }
        (true, if env.summaryOk then update_monthly_totals s1 month else s1)
      else (false, state)

/-- The dict returned by `get_monthly_total`; `none` in a category field means
that key is absent from the returned dict. -/
structure SummaryResult where
  month : List Char
  total : ℚ
  food : Option ℚ
  transport : Option ℚ
  utilities : Option ℚ
  shopping : Option ℚ
  entertainment : Option ℚ
  healthcare : Option ℚ
  other : Option ℚ
deriving DecidableEq

/-- One field read `float(row[k]) if len(row) > k and row[k] else 0`;
`none` models a raised conversion error. -/
def summaryField (row : List Cell) (k : Nat) : Option ℚ :=
  if k < row.length ∧ cellTruthy (row.getD k (.n 0)) then cellFloat (row.getD k (.n 0))
  else some 0

/-- The `{'month': month_str, 'total': 0}` dict returned when the month has no
summary row (or on a caught exception): the seven category keys are absent. -/
def shortSummary (month : List Char) : SummaryResult :=
  ⟨month, 0, none, none, none, none, none, none, none⟩

/-- `get_monthly_total`: defaults the month to the current one, scans the
summary rows for an exact key match and converts its nine columns; with no
matching row (or on a conversion error, caught by the `except` branch) the
short month/total-only dict is returned.  In the matched branch `row[0]`
equals `month` by the very match condition, so the `month` field is written
as `month`. -/
def get_monthly_total (state : SheetsState) (today : Date)
    (monthArg : Option (List Char)) : SummaryResult :=
  let month := monthArg.getD (fmtMonth today.year today.month)
  match (state.summary.drop 1).find?
      (fun row => !row.isEmpty && cellEqStr (row.headD (.n 0)) month) with
  | none => shortSummary month
  | some row =>
    match (do
      let t ← summaryField row 1
      let f ← summaryField row 2
      let tr ← summaryField row 3
      let u ← summaryField row 4
      let sh ← summaryField row 5
      let en ← summaryField row 6
      let hc ← summaryField row 7
      let ot ← summaryField row 8
      some (SummaryResult.mk month t (some f) (some tr) (some u) (some sh) (some en)
        (some hc) (some ot)) : Option SummaryResult) with
    | some r => r
    | none => shortSummary month

/-- Python slice `t[a : len(t) - b]`, as used by `response_text[7:-3]` and
`response_text[3:-3]`. -/
def pySliceDrop (t : List Char) (a b : Nat) : List Char :=
  (t.drop a).take (t.length - b - a)

/-- The code-fence stripping applied to the classifier's (already stripped)
response text: `startswith('```json')` drops 7 leading and 3 trailing
characters, otherwise `startswith('```')` drops 3 and 3. -/
def stripCodeFences (t : List Char) : List Char :=
  if t.take 7 = ("```json".data) then pySliceDrop t 7 3
  else if t.take 3 = ("```".data) then pySliceDrop t 3 3
  else t

/-- `extract_expense_data`, from the classifier response text on: `none` or an
empty text yields the no-response error dict; otherwise the stripped,
defenced text is parsed and the decoded value returned unchanged, or the
parse-failure error dict on a `json.JSONDecodeError`. -/
def extract_expense_data (response : Option (List Char)) : Json :=
  match response with
  | none => .obj [(("error".data), .str ("No response from AI".data))]
  | some raw =>
    if raw.isEmpty then .obj [(("error".data), .str ("No response from AI".data))]
    else
      let t := stripCodeFences (pyStrip raw)
      match pyJsonLoads t with
      | some v => v
      | none => .obj [(("error".data), .str ("Failed to parse AI response".data))]

/-- The user-visible replies the webhook can send (their exact wording is not
modelled, only which reply is sent with which payload). -/
inductive Reply where
  | welcome
  | summaryReport (r : SummaryResult)
  | summaryFailed
  | setupDone
  | setupFailed
  | sheetsNotConfigured
  | extractionError (v : Json)
  | expenseLogged (d : List (List Char × Json))
  | logFailed
  | couldNotProcess

/-- Observable actions of one webhook invocation, in order: messages sent,
calls into the classifier and the store, and the uncaught-exception path
(the handler's outer `except`, which answers HTTP 500 with no reply). -/
inductive Effect where
  | send (r : Reply)
  | callExtractor (text : List Char)
  | storeRead
  | storeSetup
  | storeAppend
  | httpError

/-- The environment of one webhook invocation: the store (absent when sheets
are unconfigured), today's date, the classifier's response text, the sheet
I/O outcomes and the `setup_sheets` outcome. -/
structure BotEnv where
  sheets : Option SheetsState
  today : Date
  classifierResponse : Option (List Char)
  ext : ExtEnv
  setupOk : Bool

/-- `log_to_sheets` on a decoded expense dict, rendered as effects: with no
configured store it returns `False` without touching the store (the failure
notice is then sent). -/
def logFlow (env : BotEnv) (d : List (List Char × Json)) : List Effect :=
  match env.sheets with
  | none => [.send .logFailed]
  | some st =>
    if (log_expense env.ext st env.today d).1 then [.storeAppend, .send (.expenseLogged d)]
    else [.storeAppend, .send .logFailed]

/-- `log_to_sheets` on a truthy non-dict decoded value: `log_expense`'s
`.get` raises, is caught there, and `False` comes back. -/
def nonDictLogFlow (env : BotEnv) : List Effect :=
  match env.sheets with
  | none => [.send .logFailed]
  | some _ => [.storeAppend, .send .logFailed]

/-- Model of `needle in hay` on strings: contiguous-substring test. -/
def containsSeq (needle : List Char) : List Char → Bool
  | [] => needle.isEmpty
  | c :: rest => needle.isPrefixOf (c :: rest) || containsSeq needle rest

/-- The `if expense_data: / 'error' in expense_data / log_to_sheets` tail of
the webhook: falsy values get the could-not-process reply; an `error` key is
echoed back; otherwise the record is logged.  On non-dict decoded values the
`in` test is membership/substring search, and `expense_data['error']` on such
a value raises, surfacing as the handler's 500 path. -/
def processExpense (env : BotEnv) (ed : Json) : List Effect :=
  if jsonTruthy ed = false then [.send .couldNotProcess]
  else
    match ed with
    | .obj kvs =>
      match dictGet kvs ("error".data) with
      | some ev => [.send (.extractionError ev)]
      | none => logFlow env kvs
    | .str sv => if containsSeq ("error".data) sv then [.httpError] else nonDictLogFlow env
    | .arr xs =>
      if xs.any (fun x => match x with | .str s => s == "error".data | _ => false) then
        [.httpError]
      else nonDictLogFlow env
    | _ => [.httpError]

/-- Whether the summary dict carries all seven category keys; the `/summary`
reply formats every one of them, so a missing key raises a `KeyError`. -/
def allSummaryFieldsPresent (r : SummaryResult) : Bool :=
  r.food.isSome && r.transport.isSome && r.utilities.isSome && r.shopping.isSome &&
  r.entertainment.isSome && r.healthcare.isSome && r.other.isSome

/-- The `elif 'text' in message` branch of `telegram_webhook`: command
dispatch on the exact text for `/start`, `/summary` and `/setup`, any other
leading-slash text falls out of the `if/elif` chain and the handler returns
with no reply; non-command text goes to the extractor and on to the expense
tail. -/
def handle_text (env : BotEnv) (text : List Char) : List Effect :=
  if text.take 1 = ['/'] then
    if text = ("/start".data) then [.send .welcome]
    else if text = ("/summary".data) then
      match env.sheets with
      | none => [.send .summaryFailed]
      | some st =>
        let r := get_monthly_total st env.today none
        if allSummaryFieldsPresent r then [.storeRead, .send (.summaryReport r)]
        else [.storeRead, .httpError]
    else if text = ("/setup".data) then
      match env.sheets with
      | some _ => [.storeSetup, .send (if env.setupOk then .setupDone else .setupFailed)]
      | none => [.send .sheetsNotConfigured]
    else []
  else
    .callExtractor text :: processExpense env (extract_expense_data env.classifierResponse)

/-- A store whose two tabs hold only their header rows (the header contents
play no role in any computation, so they are abbreviated). -/
def emptyStore : SheetsState := ⟨[[]], [[]]⟩

/-- Two SheetsStates are equal iff both tabs are. -/
theorem sheetsStateExt (a b : SheetsState) (h1 : a.expenses = b.expenses)
    (h2 : a.summary = b.summary) : a = b := by
  cases a; cases b; cases h1; cases h2; rfl

/-- `update_monthly_totals` never touches the Expenses tab. -/
theorem update_monthly_totals_expenses (s : SheetsState) (m : List Char) :
    (update_monthly_totals s m).expenses = s.expenses := by
  unfold update_monthly_totals
  split
  · rfl
  · split <;> rfl

/-- Claim C1: for a month key with no summary row, `get_monthly_total` is claimed
to return a summary in which the total and all seven category fields are
present and 0.  The code instead returns the dict `\x7b'month': month_str,
'total': 0\x7d`: the seven category fields are absent (`none` here), which the
`/summary` renderer then trips over. -/
theorem c1_missing_month_omits_category_fields :
    get_monthly_total emptyStore ⟨2024, 3, 15⟩ (some ("2030-01".data))
      = { month := ("2030-01".data), total := 0, food := none, transport := none,
          utilities := none, shopping := none, entertainment := none, healthcare := none,
          other := none } := rfl

/-- Claim C3: a ledger row whose lowercased category string is `"total"` is
claimed to be counted under `other`; the code's `if category in totals` test
instead hits the accumulator's own `'total'` key, so the amount 10 below is
added to the total twice and `other` stays 0. -/
theorem c3_total_category_not_folded_into_other :
    computeTotals
      [[], [.s ("2024-03-01".data), .n 10, .s ("Total".data), .s [], .s [], .s ("2024-03".data)]]
      ("2024-03".data)
      = some ⟨20, 0, 0, 0, 0, 0, 0, 0⟩ := by
  norm_num [computeTotals, sumExpenseRows, expenseRowStep, bumpTotals, cellTruthy, cellFloat,
    cellLower, cellEqStr, pyLower, totalsInit]
  decide

/-- Claim C4: the recomputed summary is claimed to satisfy
total = food + transport + utilities + shopping + entertainment + healthcare +
other for every ledger content; a ledger row with category string `"TOTAL"`
refutes it (total = 14, all category buckets 0). -/
theorem c4_total_differs_from_category_sum :
    ∃ t : Totals,
      computeTotals
        [[], [.s ("2024-04-02".data), .n 7, .s ("TOTAL".data), .s [], .s [], .s ("2024-04".data)]]
        ("2024-04".data) = some t ∧
      t.total ≠ t.food + t.transport + t.utilities + t.shopping + t.entertainment +
        t.healthcare + t.other := by
  refine ⟨⟨14, 0, 0, 0, 0, 0, 0, 0⟩, ?_, by norm_num⟩
  norm_num [computeTotals, sumExpenseRows, expenseRowStep, bumpTotals, cellTruthy, cellFloat,
    cellLower, cellEqStr, pyLower, totalsInit]
  decide

/-- Claim C10: a present but unparseable date string makes `log_expense`
report failure before anything is written: the state comes back unchanged. -/
theorem c10_bad_date_leaves_state_unchanged (env : ExtEnv) (s : SheetsState) (today : Date)
    (d : List (List Char × Json)) (ds : List Char)
    (hdate : dictGet d ("date".data) = some (.str ds))
    (hbad : parseDate ds = none) :
    log_expense env s today d = (false, s) := by
  unfold log_expense expenseDateStr expenseDate
  rw [hdate]
  simp [hbad]

/-- Witness for C10 at the date string "not-a-date". -/
theorem c10_bad_date_leaves_state_unchanged_witness :
    log_expense ⟨true, true⟩ emptyStore ⟨2024, 3, 15⟩
      [(("date".data), Json.str ("not-a-date".data))] = (false, emptyStore) :=
  c10_bad_date_leaves_state_unchanged ⟨true, true⟩ emptyStore ⟨2024, 3, 15⟩
    [(("date".data), Json.str ("not-a-date".data))] ("not-a-date".data) rfl rfl

/-- A decoded expense dict carrying a date and an amount. -/
def sampleDict : List (List Char × Json) :=
  [(("date".data), Json.str ("2024-03-15".data)), (("amount".data), Json.num 12)]

/-- Counterexample to claim C2 as stated: with the ledger append succeeding and
the summary recompute failing (`summaryOk = false`), `log_expense` still
returns success, the ledger row is appended, and the summary tab is untouched
— it does not report failure. -/
theorem c2_counterexample_summary_failure_reports_success :
    (log_expense ⟨true, false⟩ emptyStore ⟨2024, 3, 15⟩ sampleDict).1 = true ∧
    (log_expense ⟨true, false⟩ emptyStore ⟨2024, 3, 15⟩ sampleDict).2.expenses
      = [[], ledgerRowOf sampleDict ("2024-03-15".data) ("2024-03".data)] ∧
    (log_expense ⟨true, false⟩ emptyStore ⟨2024, 3, 15⟩ sampleDict).2.summary = [[]] :=
  ⟨rfl, rfl, rfl⟩

/-- Claim C2, amended: `log_expense` returns failure exactly when the date
handling or the ledger append fails (and then leaves the state unchanged); a
failure of the monthly-summary recomputation is caught inside that step, so
the call still reports success while the summary tab stays unwritten and the
appended ledger row is not rolled back. -/
theorem c2_amended_failure_reporting (env : ExtEnv) (s : SheetsState) (today : Date)
    (d : List (List Char × Json)) :
    ((log_expense env s today d).1 = true ↔
      ((expenseDateStr d today).bind parseDate).isSome = true ∧ env.appendOk = true) ∧
    ((log_expense env s today d).1 = false → (log_expense env s today d).2 = s) ∧
    (env.summaryOk = false → (log_expense env s today d).2.summary = s.summary) := by
  unfold log_expense
  cases hds : expenseDateStr d today with
  | none => simp
  | some dateStr =>
    cases hp : parseDate dateStr with
    | none => simp [hp]
    | some dt =>
      cases happ : env.appendOk with
      | false => simp [hp, happ]
      | true =>
        cases hso : env.summaryOk with
        | false => simp [hp, happ, hso]
        | true => simp [hp, happ, hso]

/-- Witness for C2 (amended): concrete instance with the summary step failing. -/
theorem c2_amended_failure_reporting_witness :
    (log_expense ⟨true, false⟩ emptyStore ⟨2024, 3, 15⟩ sampleDict).2.summary
      = emptyStore.summary :=
  (c2_amended_failure_reporting ⟨true, false⟩ emptyStore ⟨2024, 3, 15⟩ sampleDict).2.2 rfl

/-- Claim C6: appending a record whose date string has the zero-padded
YYYY-MM-DD shape persists a ledger row whose month cell is the date's YYYY-MM
part, i.e. the date string is exactly that month key followed by "-DD". -/
theorem c6_month_key_is_date_year_month_part (env : ExtEnv) (s : SheetsState) (today : Date)
    (d : List (List Char × Json)) (ds : List Char) (y m dd : Nat)
    (hdate : dictGet d ("date".data) = some (.str ds))
    (hform : ds = pad4 y ++ '-' :: (pad2 m ++ '-' :: pad2 dd))
    (hparse : parseDate ds = some ⟨y, m, dd⟩)
    (happ : env.appendOk = true) :
    (log_expense env s today d).2.expenses
      = s.expenses ++ [ledgerRowOf d ds (fmtMonth y m)] ∧
    ds = fmtMonth y m ++ '-' :: pad2 dd := by
  constructor
  · unfold log_expense expenseDateStr expenseDate
    rw [hdate]
    simp only [Option.getD_some]
    rw [hparse]
    simp only [happ, if_true]
    cases hso : env.summaryOk with
    | false => simp
    | true =>
      simp only [if_true]
      rw [update_monthly_totals_expenses]
  · rw [hform]
    simp [fmtMonth, List.append_assoc]

/-- Witness for C6 at the date 2024-03-15 (month key 2024-03). -/
theorem c6_month_key_is_date_year_month_part_witness :
    (log_expense ⟨true, false⟩ emptyStore ⟨2024, 1, 1⟩ sampleDict).2.expenses
      = emptyStore.expenses ++ [ledgerRowOf sampleDict ("2024-03-15".data) (fmtMonth 2024 3)] ∧
    ("2024-03-15".data) = fmtMonth 2024 3 ++ '-' :: pad2 15 :=
  c6_month_key_is_date_year_month_part ⟨true, false⟩ emptyStore ⟨2024, 1, 1⟩ sampleDict
    ("2024-03-15".data) 2024 3 15 rfl rfl rfl rfl

/-- Claim C7: at write time every absent field gets its default (current date,
category `other`, empty description and merchant), and extraction itself
performs no defaulting: whatever the stripped classifier output decodes to is
returned unchanged. -/
theorem c7_write_time_defaults (env : ExtEnv) (s : SheetsState) (today : Date)
    (d : List (List Char × Json))
    (hd : dictGet d ("date".data) = none)
    (hc : dictGet d ("category".data) = none)
    (hde : dictGet d ("description".data) = none)
    (hm : dictGet d ("merchant".data) = none)
    (htoday : parseDate (fmtDate today) = some today)
    (happ : env.appendOk = true) :
    (log_expense env s today d).2.expenses
      = s.expenses ++
        [[Cell.s (fmtDate today),
          jsonCell ((dictGet d ("amount".data)).getD (.num 0)),
          Cell.s ("other".data), Cell.s [], Cell.s [],
          Cell.s (fmtMonth today.year today.month)]] ∧
    (∀ raw v, raw ≠ [] → pyJsonLoads (stripCodeFences (pyStrip raw)) = some v →
      extract_expense_data (some raw) = v) := by
  constructor
  · unfold log_expense expenseDateStr expenseDate
    rw [hd]
    simp only [Option.getD_none]
    rw [htoday]
    simp only [happ, if_true]
    have hrow : ledgerRowOf d (fmtDate today) (fmtMonth today.year today.month)
        = [Cell.s (fmtDate today),
           jsonCell ((dictGet d ("amount".data)).getD (.num 0)),
           Cell.s ("other".data), Cell.s [], Cell.s [],
           Cell.s (fmtMonth today.year today.month)] := by
      unfold ledgerRowOf
      rw [hc, hde, hm]
      rfl
    cases hso : env.summaryOk with
    | false => simp [hrow]
    | true =>
      simp only [if_true]
      rw [update_monthly_totals_expenses]
      simp [hrow]
  · intro raw v hraw hparse
    have hne : raw.isEmpty = false := by simpa using hraw
    simp [extract_expense_data, hne, hparse]

/-- Witness for C7: a dict carrying only an amount gets all four defaults. -/
theorem c7_write_time_defaults_witness :
    (log_expense ⟨true, false⟩ emptyStore ⟨2024, 3, 15⟩
        [(("amount".data), Json.num 12)]).2.expenses
      = emptyStore.expenses ++
        [[Cell.s (fmtDate ⟨2024, 3, 15⟩),
          jsonCell ((dictGet [(("amount".data), Json.num 12)] ("amount".data)).getD (.num 0)),
          Cell.s ("other".data), Cell.s [], Cell.s [], Cell.s (fmtMonth 2024 3)]] :=
  (c7_write_time_defaults ⟨true, false⟩ emptyStore ⟨2024, 3, 15⟩
    [(("amount".data), Json.num 12)] rfl rfl rfl rfl rfl rfl).1

/-- Claim C8: a valid JSON payload wrapped in code fences (```json ... ``` or
``` ... ```) is unwrapped by the extractor and decodes to exactly the wrapped
value.  (A JSON value cannot begin with the letters `json`, which the second
part records as the explicit take-7 side condition.) -/
theorem c8_code_fence_stripping (raw j : List Char) (v : Json)
    (hjson : pyJsonLoads j = some v) :
    (pyStrip raw = ("```json".data) ++ j ++ ("```".data) →
      extract_expense_data (some raw) = v) ∧
    (pyStrip raw = ("```".data) ++ j ++ ("```".data) →
      (("```".data) ++ j ++ ("```".data)).take 7 ≠ ("```json".data) →
      extract_expense_data (some raw) = v) := by
  constructor
  · intro hstrip
    have hne : raw.isEmpty = false := by
      cases raw with
      | nil =>
        exfalso
        rw [show pyStrip ([] : List Char) = [] from rfl] at hstrip
        exact absurd hstrip (by simp)
      | cons a t => rfl
    have hfence : stripCodeFences (pyStrip raw) = j := by
      rw [hstrip]
      unfold stripCodeFences
      rw [if_pos ?hp]
      case hp =>
        rw [List.append_assoc]
        conv_lhs => rw [show (7 : Nat) = ("```json".data).length from rfl]
        exact List.take_left _ _
      have hlen : (("```json".data) ++ j ++ ("```".data)).length - 3 - 7 = j.length := by
        have l1 : ("```json".data).length = 7 := rfl
        have l2 : ("```".data).length = 3 := rfl
        simp [List.length_append, l1, l2]
      unfold pySliceDrop
      rw [hlen, List.append_assoc]
      have hdrop : (("```json".data) ++ (j ++ ("```".data))).drop 7 = j ++ ("```".data) := by
        conv_lhs => rw [show (7 : Nat) = ("```json".data).length from rfl]
        exact List.drop_left _ _
      rw [hdrop]
      exact List.take_left _ _
    simp [extract_expense_data, hne, hfence, hjson]
  · intro hstrip hne7
    have hne : raw.isEmpty = false := by
      cases raw with
      | nil =>
        exfalso
        rw [show pyStrip ([] : List Char) = [] from rfl] at hstrip
        exact absurd hstrip (by simp)
      | cons a t => rfl
    have hfence : stripCodeFences (pyStrip raw) = j := by
      rw [hstrip]
      unfold stripCodeFences
      rw [if_neg hne7]
      rw [if_pos ?hp]
      case hp =>
        rw [List.append_assoc]
        conv_lhs => rw [show (3 : Nat) = ("```".data).length from rfl]
        exact List.take_left _ _
      have hlen : (("```".data) ++ j ++ ("```".data)).length - 3 - 3 = j.length := by
        have l2 : ("```".data).length = 3 := rfl
        simp [List.length_append, l2]
      unfold pySliceDrop
      rw [hlen, List.append_assoc]
      have hdrop : (("```".data) ++ (j ++ ("```".data))).drop 3 = j ++ ("```".data) := by
        conv_lhs => rw [show (3 : Nat) = ("```".data).length from rfl]
        exact List.drop_left _ _
      rw [hdrop]
      exact List.take_left _ _
    simp [extract_expense_data, hne, hfence, hjson]

/-- Witness for C8 on the fenced payload ```json{"amount": 15}```. -/
theorem c8_code_fence_stripping_witness :
    extract_expense_data (some ("```json\x7b\"amount\": 15\x7d```".data))
      = Json.obj [(("amount".data), Json.num (mkRat 15 1))] :=
  (c8_code_fence_stripping ("```json\x7b\"amount\": 15\x7d```".data)
    ("\x7b\"amount\": 15\x7d".data)
    (Json.obj [(("amount".data), Json.num (mkRat 15 1))]) rfl).1 rfl

/-- Claim C9: a leading-slash text that is none of /start, /summary, /setup
produces no effects at all: no reply, no extractor call, no store call. -/
theorem c9_unknown_command_silent (env : BotEnv) (text : List Char)
    (hs : text.take 1 = ['/'])
    (h1 : text ≠ ("/start".data)) (h2 : text ≠ ("/summary".data))
    (h3 : text ≠ ("/setup".data)) :
    handle_text env text = [] := by
  unfold handle_text
  rw [if_pos hs, if_neg h1, if_neg h2, if_neg h3]

/-- Witness for C9 at the unknown command "/foo". -/
theorem c9_unknown_command_silent_witness :
    handle_text ⟨none, ⟨2024, 3, 15⟩, none, ⟨true, true⟩, true⟩ ("/foo".data) = [] :=
  c9_unknown_command_silent ⟨none, ⟨2024, 3, 15⟩, none, ⟨true, true⟩, true⟩ ("/foo".data)
    rfl (by decide) (by decide) (by decide)

/-- The row-search predicate of `findRowFrom`. -/
def rowMatches (month : List Char) (row : List Cell) : Bool :=
  !row.isEmpty && cellEqStr (row.headD (.n 0)) month

theorem findRowFrom_lt_length (month : List Char) (l : List (List Cell)) (j : Nat)
    (h : findRowFrom month l = some j) : j < l.length := by
  induction l generalizing j with
  | nil => simp [findRowFrom] at h
  | cons r rest ih =>
    unfold findRowFrom at h
    by_cases hc : (!r.isEmpty && cellEqStr (r.headD (.n 0)) month) = true
    · rw [if_pos hc] at h
      cases h
      simp
    · rw [if_neg hc] at h
      cases hj : findRowFrom month rest with
      | none => rw [hj] at h; simp at h
      | some k =>
        rw [hj] at h
        simp only [Option.map_some'] at h
        cases h
        have := ih k hj
        simp
        omega

theorem findRowFrom_set (month : List Char) (l : List (List Cell)) (j : Nat) (r : List Cell)
    (hf : findRowFrom month l = some j)
    (hr : (!r.isEmpty && cellEqStr (r.headD (.n 0)) month) = true) :
    findRowFrom month (l.set j r) = some j := by
  induction l generalizing j with
  | nil => simp [findRowFrom] at hf
  | cons x rest ih =>
    unfold findRowFrom at hf
    by_cases hc : (!x.isEmpty && cellEqStr (x.headD (.n 0)) month) = true
    · rw [if_pos hc] at hf
      cases hf
      show findRowFrom month (r :: rest) = some 0
      unfold findRowFrom
      rw [if_pos hr]
    · rw [if_neg hc] at hf
      cases hj : findRowFrom month rest with
      | none => rw [hj] at hf; simp at hf
      | some k =>
        rw [hj] at hf
        simp only [Option.map_some'] at hf
        cases hf
        show findRowFrom month (x :: rest.set k r) = some (k + 1)
        unfold findRowFrom
        rw [if_neg hc, ih k hj]
        rfl

theorem findRowFrom_append (month : List Char) (l : List (List Cell)) (r : List Cell)
    (hf : findRowFrom month l = none)
    (hr : (!r.isEmpty && cellEqStr (r.headD (.n 0)) month) = true) :
    findRowFrom month (l ++ [r]) = some l.length := by
  induction l with
  | nil =>
    show findRowFrom month [r] = some 0
    unfold findRowFrom
    rw [if_pos hr]
  | cons x rest ih =>
    unfold findRowFrom at hf
    by_cases hc : (!x.isEmpty && cellEqStr (x.headD (.n 0)) month) = true
    · rw [if_pos hc] at hf; simp at hf
    · rw [if_neg hc] at hf
      cases hj : findRowFrom month rest with
      | some k => rw [hj] at hf; simp at hf
      | none =>
        show findRowFrom month (x :: (rest ++ [r])) = some (rest.length + 1)
        unfold findRowFrom
        rw [if_neg hc, ih hj]
        rfl

theorem getD_set_self {α : Type} (l : List α) (n : Nat) (a dflt : α) (h : n < l.length) :
    (l.set n a).getD n dflt = a := by
  induction l generalizing n with
  | nil => simp at h
  | cons x rest ih =>
    cases n with
    | zero => rfl
    | succ k =>
      show (rest.set k a).getD k dflt = a
      exact ih k (by simpa using h)

theorem getD_append_last {α : Type} (l : List α) (a dflt : α) :
    (l ++ [a]).getD l.length dflt = a := by
  induction l with
  | nil => rfl
  | cons x rest ih => exact ih

theorem set_append_last {α : Type} (l : List α) (a b : α) :
    (l ++ [a]).set l.length b = l ++ [b] := by
  induction l with
  | nil => rfl
  | cons x rest ih => simp [List.set, ih]

theorem drop_one_set_succ (l : List (List Cell)) (j : Nat) (r : List Cell) :
    (l.set (j + 1) r).drop 1 = (l.drop 1).set j r := by
  cases l <;> rfl

theorem drop_one_append {α : Type} (l : List α) (r : α) (h : l ≠ []) :
    (l ++ [r]).drop 1 = l.drop 1 ++ [r] := by
  cases l with
  | nil => exact absurd rfl h
  | cons x rest => rfl

theorem summaryRowOf_matches (m : List Char) (t : Totals) (z : List Cell) :
    (!((summaryRowOf m t ++ z).isEmpty) &&
      cellEqStr ((summaryRowOf m t ++ z).headD (.n 0)) m) = true := by
  simp [summaryRowOf, cellEqStr]

theorem summaryRowOf_append_drop (m : List Char) (t : Totals) (z : List Cell) :
    (summaryRowOf m t ++ z).drop 9 = z := by
  have h : (9 : Nat) = (summaryRowOf m t).length := rfl
  rw [h, List.drop_left]

theorem update_found (s : SheetsState) (m : List Char) (t : Totals) (j : Nat)
    (hct : computeTotals s.expenses m = some t)
    (hf : findRowFrom m (s.summary.drop 1) = some j) :
    update_monthly_totals s m
      = ⟨s.expenses,
         s.summary.set (j + 1) (summaryRowOf m t ++ (s.summary.getD (j + 1) []).drop 9)⟩ := by
  unfold update_monthly_totals
  rw [hct, hf]

theorem update_notfound (s : SheetsState) (m : List Char) (t : Totals)
    (hct : computeTotals s.expenses m = some t)
    (hf : findRowFrom m (s.summary.drop 1) = none) :
    update_monthly_totals s m = ⟨s.expenses, s.summary ++ [summaryRowOf m t]⟩ := by
  unfold update_monthly_totals
  rw [hct, hf]

theorem summaryRowOf_matches_self (m : List Char) (t : Totals) :
    (!((summaryRowOf m t).isEmpty) && cellEqStr ((summaryRowOf m t).headD (.n 0)) m) = true := by
  simp [summaryRowOf, cellEqStr]

/-- Claim C5: the monthly recompute is a pure function of the ledger, so with
no new ledger rows in between, running `_update_monthly_totals` a second time
recreates the very same summary row and leaves the store exactly as after the
first run (the summary tab carrying its header row, as `/setup` provisions). -/
theorem c5_update_monthly_totals_idempotent (s : SheetsState) (m : List Char)
    (hh : s.summary ≠ []) :
    update_monthly_totals (update_monthly_totals s m) m = update_monthly_totals s m := by
  cases hct : computeTotals s.expenses m with
  | none =>
    have h1 : update_monthly_totals s m = s := by
      unfold update_monthly_totals
      rw [hct]
    rw [h1]
    exact h1
  | some t =>
    cases hf : findRowFrom m (s.summary.drop 1) with
    | some j =>
      have hjlt : j < (s.summary.drop 1).length := findRowFrom_lt_length _ _ _ hf
      have hjlt2 : j + 1 < s.summary.length := by
        rw [List.length_drop] at hjlt
        omega
      have h1 := update_found s m t j hct hf
      have hct2 : computeTotals (update_monthly_totals s m).expenses m = some t := by
        rw [h1]
        exact hct
      have hf2 : findRowFrom m ((update_monthly_totals s m).summary.drop 1) = some j := by
        rw [h1]
        show findRowFrom m
          ((s.summary.set (j + 1)
            (summaryRowOf m t ++ (s.summary.getD (j + 1) []).drop 9)).drop 1) = some j
        rw [drop_one_set_succ]
        exact findRowFrom_set m _ j _ hf (summaryRowOf_matches m t _)
      have hg2 : (update_monthly_totals s m).summary.getD (j + 1) []
          = summaryRowOf m t ++ (s.summary.getD (j + 1) []).drop 9 := by
        rw [h1]
        exact getD_set_self _ _ _ _ hjlt2
      have h2 := update_found (update_monthly_totals s m) m t j hct2 hf2
      rw [h2, hg2, summaryRowOf_append_drop, h1]
      apply sheetsStateExt
      · rfl
      · exact List.set_set _ _ _ _
    | none =>
      have h1 := update_notfound s m t hct hf
      have hct2 : computeTotals (update_monthly_totals s m).expenses m = some t := by
        rw [h1]
        exact hct
      have hf2 : findRowFrom m ((update_monthly_totals s m).summary.drop 1)
          = some ((s.summary.drop 1).length) := by
        rw [h1]
        show findRowFrom m ((s.summary ++ [summaryRowOf m t]).drop 1) = _
        rw [drop_one_append _ _ hh]
        exact findRowFrom_append m _ _ hf (summaryRowOf_matches_self m t)
      have hidx : (s.summary.drop 1).length + 1 = s.summary.length := by
        rw [List.length_drop]
        have : 0 < s.summary.length := List.length_pos.mpr hh
        omega
      have h2 := update_found (update_monthly_totals s m) m t _ hct2 hf2
      rw [h2, h1]
      apply sheetsStateExt
      · rfl
      · dsimp only
        rw [hidx, getD_append_last]
        have hdrop9 : (summaryRowOf m t).drop 9 = ([] : List Cell) := rfl
        rw [hdrop9, List.append_nil]
        exact set_append_last _ _ _

/-- Witness for C5 on a store with a header row and one summary row. -/
theorem c5_update_monthly_totals_idempotent_witness :
    update_monthly_totals
        (update_monthly_totals ⟨[[]], [[], summaryRowOf ("2024-03".data) totalsInit]⟩
          ("2024-03".data)) ("2024-03".data)
      = update_monthly_totals ⟨[[]], [[], summaryRowOf ("2024-03".data) totalsInit]⟩
          ("2024-03".data) :=
  c5_update_monthly_totals_idempotent
    ⟨[[]], [[], summaryRowOf ("2024-03".data) totalsInit]⟩ ("2024-03".data) (by simp)
